import Mathlib

/-!
Verification of the LifeOS × TANA backend (`src/main.py`, `src/schemas.py`).

The HTTP handlers of `main.py` are shallowly embedded as pure Lean functions
over an explicit application state holding the document-store collections.
Timestamps are modelled as integers (`Int`), document identifiers as strings,
and fallible handlers return `Except HErr _` together with the resulting
state.

The document store itself (`database.py`: the `db` handle, `create_document`
and `get_documents`) is repository code that is not available here.
Modelled from the spec: the store offers "insert, find-one, find-many, and
update-by-filter operations, each operating on named logical collections";
each collection is modelled as a Lean list, insertion appends, `find_one`
returns the first match, and `update_one` with a `$set` document rewrites
the named fields of the first matching document.
-/

namespace LifeOS

/-- An HTTP error as raised via `HTTPException(status_code, detail)`. -/
structure HErr where
  status : Nat
  detail : String
deriving Repr, DecidableEq

/-- A stored `user` document (`schemas.User` plus its Mongo `_id`,
modelled as a string). -/
structure UserDoc where
  id : String
  name : String
  email : String
  purpose : String
  age : Option Int
  tana_mind : Int
  tana_money : Int
  tana_meaning : Int
  total_sessions : Int
  sessions_used : Int
deriving Repr, DecidableEq

/-- A stored `credential` document (inserted by `signup`). -/
structure CredentialDoc where
  user_id : String
  password_hash : String
  created_at : Int
deriving Repr, DecidableEq

/-- A stored `auth_token` document (inserted by `signup` / `login`). -/
structure TokenDoc where
  user_id : String
  token : String
  created_at : Int
  expires_at : Option Int
deriving Repr, DecidableEq

/-- A stored `session` document (`schemas.Session`). -/
structure SessionDoc where
  user_id : String
  topic : String
  date : String
  time : String
  feedback : Option String
  spatial_url : Option String
  status : String
deriving Repr, DecidableEq

/-- A stored `reflection` document (`schemas.Reflection`).  The `pillar`
field is the string of the three-way literal enum `Mind | Money | Meaning`. -/
structure ReflectionDoc where
  user_id : String
  pillar : String
  entry_text : String
  mood : Option String
  created_at : Option Int
deriving Repr, DecidableEq

/-- A stored `email_log` document (inserted by `create_session`).
The source key `"to"` is a Lean keyword and is rendered `to_addr`. -/
structure EmailDoc where
  to_addr : String
  subject : String
  body : String
  created_at : Int
deriving Repr, DecidableEq

/-- The document store: one list per logical collection.
Modelled from the spec: `database.py` is not under `src/`; collections are
lists, insertion appends at the end, `find_one` is `List.find?`. -/
structure AppState where
  users : List UserDoc
  credentials : List CredentialDoc
  auth_tokens : List TokenDoc
  sessions : List SessionDoc
  reflections : List ReflectionDoc
  email_log : List EmailDoc
deriving Repr, DecidableEq

/-- The identity projection returned by `get_current_user`
(`class AuthUser(BaseModel)`). -/
structure AuthUser where
  id : String
  name : String
  email : String
deriving Repr, DecidableEq

/-- `update_one(filter, set)` on a collection: rewrite the first document
matching the filter.  Modelled from the spec (`database.py` is not under
`src/`): "update-by-filter". -/
def updateFirst (p : α → Bool) (f : α → α) : List α → List α
  | [] => []
  | x :: xs => if p x then f x :: xs else x :: updateFirst p f xs

/-- Python's `needle in hay` substring test, on character lists. -/
def listContainsSub (needle : List Char) : List Char → Bool
  | [] => needle.isEmpty
  | c :: t => needle.isPrefixOf (c :: t) || listContainsSub needle t

/-- Python's `needle in hay` substring test on strings. -/
def strContains (hay needle : String) : Bool :=
  listContainsSub needle.data hay.data

/-- Python's `str.lower()`, character by character (the strings compared
in this program are ASCII, where the two agree). -/
def lowerStr (s : String) : String := String.mk (s.data.map Char.toLower)

/-- The truthiness-guarded expiry test of `get_current_user`:
`token_doc.get("expires_at") and token_doc["expires_at"] < now`.
An absent / `None` expiry is falsy, so the comparison is skipped. -/
def expiredAt (expiry : Option Int) (now : Int) : Bool :=
  match expiry with
  | none => false
  | some e => e < now

/-- The token-resolution core of `get_current_user` (`src/main.py` lines
60–68): look up the token record, reject if absent, reject if strictly
expired, load the user, reject if the user is gone, otherwise project
`{id, name, email}`. -/
def resolveToken (st : AppState) (now : Int) (token : String) :
    Except HErr AuthUser :=
  match st.auth_tokens.find? (fun t => t.token == token) with
  | none => .error ⟨401, "Invalid token"⟩
  | some token_doc =>
    if expiredAt token_doc.expires_at now then
      .error ⟨401, "Token expired"⟩
    else
      match st.users.find? (fun u => u.id == token_doc.user_id) with
      | none => .error ⟨401, "User not found"⟩
      | some user => .ok ⟨user.id, user.name, user.email⟩

/-- `get_current_user` (`src/main.py` lines 56–68): header presence and
`Bearer ` scheme check, then token resolution. -/
def get_current_user (st : AppState) (now : Int)
    (authorization : Option String) : Except HErr AuthUser :=
  match authorization with
  | none => .error ⟨401, "Missing or invalid authorization header"⟩
  | some auth =>
    if (lowerStr auth).startsWith "bearer " then
      resolveToken st now ((auth.splitOn " ").getD 1 "")
    else
      .error ⟨401, "Missing or invalid authorization header"⟩

/-- Dynamic field read `int(user.get(field, 0))` for the integer fields
that `create_session` / `add_reflection` update by name. -/
def getField (u : UserDoc) (field : String) : Int :=
  if field = "tana_mind" then u.tana_mind
  else if field = "tana_money" then u.tana_money
  else if field = "tana_meaning" then u.tana_meaning
  else if field = "sessions_used" then u.sessions_used
  else 0

/-- Dynamic field write: one entry of a `$set` update document. -/
def setField (u : UserDoc) (field : String) (value : Int) : UserDoc :=
  if field = "tana_mind" then { u with tana_mind := value }
  else if field = "tana_money" then { u with tana_money := value }
  else if field = "tana_meaning" then { u with tana_meaning := value }
  else if field = "sessions_used" then { u with sessions_used := value }
  else u

/-- The signup payload (`schemas.SignupRequest`); note it exposes no
pillar-score or session-quota fields. -/
structure SignupRequest where
  name : String
  email : String
  password : String
  purpose : String
  age : Option Int
deriving Repr, DecidableEq

/-- The `{token, user_id}` response of `signup` / `login`. -/
structure SignupResp where
  token : String
  user_id : String
deriving Repr, DecidableEq

/-- Seven days in seconds: `timedelta(days=7)` on integer timestamps. -/
def sevenDays : Int := 7 * 86400

/-- `signup` (`src/main.py` lines 103–141).  `hashFn` abstracts
`hash_password` (a salted SHA-256 digest, irrelevant to control flow);
`newId` is the store-assigned `_id` of the inserted user and `newToken`
the value of `generate_token()`.  On a duplicate email the handler raises
before any write, so the state is returned unchanged. -/
def signup (hashFn : String → String) (st : AppState) (now : Int)
    (newId newToken : String) (payload : SignupRequest) :
    Except HErr SignupResp × AppState :=
  match st.users.find? (fun u => u.email == payload.email) with
  | some _ => (.error ⟨400, "Email already registered"⟩, st)
  | none =>
    let user_doc : UserDoc :=
      { id := newId, name := payload.name, email := payload.email,
        purpose := payload.purpose, age := payload.age,
        tana_mind := 0, tana_money := 0, tana_meaning := 0,
        total_sessions := 3, sessions_used := 0 }
    let st1 := { st with users := st.users ++ [user_doc] }
    let st2 := { st1 with credentials := st1.credentials ++
      [({ user_id := newId, password_hash := hashFn payload.password,
          created_at := now } : CredentialDoc)] }
    let st3 := { st2 with auth_tokens := st2.auth_tokens ++
      [({ user_id := newId, token := newToken, created_at := now,
          expires_at := some (now + sevenDays) } : TokenDoc)] }
    (.ok ⟨newToken, newId⟩, st3)

/-- Python's `round` on an exact rational: round to the nearest integer,
ties to the even integer (banker's rounding). -/
def pyRound (q : ℚ) : ℤ :=
  if q - (⌊q⌋ : ℤ) < 1/2 then ⌊q⌋
  else if 1/2 < q - (⌊q⌋ : ℤ) then ⌊q⌋ + 1
  else if ⌊q⌋ % 2 = 0 then ⌊q⌋ else ⌊q⌋ + 1

/-- The dashboard response (`dashboard`, `src/main.py` lines 174–200):
pillar scores, their rounded percentage shares, and the session quota. -/
structure DashboardResp where
  name : String
  purpose : String
  mind : Int
  money : Int
  meaning : Int
  pMind : ℤ
  pMoney : ℤ
  pMeaning : ℤ
  used : Int
  total : Int
deriving Repr, DecidableEq

/-- `dashboard` (`src/main.py` lines 174–200): read-only derived view with
`total = max(mind + money + meaning, 1)` as denominator. -/
def dashboard (st : AppState) (current : AuthUser) :
    Except HErr DashboardResp :=
  match st.users.find? (fun u => u.id == current.id) with
  | none => .error ⟨404, "User not found"⟩
  | some user =>
    let mind := user.tana_mind
    let money := user.tana_money
    let meaning := user.tana_meaning
    let total : Int := max (mind + money + meaning) 1
    .ok { name := user.name, purpose := user.purpose,
          mind := mind, money := money, meaning := meaning,
          pMind := pyRound ((mind : ℚ) / (total : ℚ) * 100),
          pMoney := pyRound ((money : ℚ) / (total : ℚ) * 100),
          pMeaning := pyRound ((meaning : ℚ) / (total : ℚ) * 100),
          used := user.sessions_used, total := user.total_sessions }

/-- The keyword scan of `create_session` (`src/main.py` lines 230–237):
first match wins among `"mind"`, `"money"`, `"meaning"` on the lowercased
topic. -/
def pillarIncOf (topic : String) : Option String :=
  let topic_lower := lowerStr topic
  if strContains topic_lower "mind" then some "tana_mind"
  else if strContains topic_lower "money" then some "tana_money"
  else if strContains topic_lower "meaning" then some "tana_meaning"
  else none

/-- Result of `create_session`: the soft `{limited: true}` response, the
`{created: true, id}` response, or an HTTP error. -/
inductive SessionResult where
  | limited
  | created (id : String)
  | err (e : HErr)
deriving Repr, DecidableEq

/-- `create_session` (`src/main.py` lines 213–254): overwrite the payload's
`user_id` with the caller's id, soft-fail when the quota is reached,
otherwise insert the session, apply one `$set` update carrying
`sessions_used + 1` and (when a keyword matched) one pillar bump computed
from the previously read user document, and append the email-log entry. -/
def create_session (st : AppState) (now : Int) (newId : String)
    (current : AuthUser) (payload : SessionDoc) :
    SessionResult × AppState :=
  let payload := { payload with user_id := current.id }
  match st.users.find? (fun u => u.id == current.id) with
  | none => (.err ⟨404, "User not found"⟩, st)
  | some user =>
    let used := user.sessions_used
    let total := user.total_sessions
    if used ≥ total then (.limited, st)
    else
      let st1 := { st with sessions := st.sessions ++ [payload] }
      let pillar_inc := pillarIncOf payload.topic
      let applyUpdates : UserDoc → UserDoc := fun u =>
        let u1 := setField u "sessions_used" (used + 1)
        match pillar_inc with
        | some field => setField u1 field (getField user field + 1)
        | none => u1
      let st2 := { st1 with
        users := updateFirst (fun u => u.id == current.id) applyUpdates
          st1.users }
      let st3 := { st2 with email_log := st2.email_log ++
        [{ to_addr := "Jagathisraj4@gmail.com",
           subject := "New TANA Session Request",
           body := "User " ++ user.name ++ " requested a session on " ++
             payload.topic ++ " for " ++ payload.date ++ " " ++ payload.time,
           created_at := now }] }
      (.created newId, st3)

/-- The `pillar_map` dict of `add_reflection` (`src/main.py` line 275):
exact, case-sensitive lookup of the pillar name. -/
def pillar_map (p : String) : Option String :=
  if p = "Mind" then some "tana_mind"
  else if p = "Money" then some "tana_money"
  else if p = "Meaning" then some "tana_meaning"
  else none

/-- `add_reflection` (`src/main.py` lines 267–281): strict ownership check,
insert the reflection with a server-assigned `created_at`, then increment
the matching pillar if the user document is still present (silently skipped
otherwise). -/
def add_reflection (st : AppState) (now : Int) (newId : String)
    (current : AuthUser) (payload : ReflectionDoc) :
    Except HErr String × AppState :=
  if payload.user_id ≠ current.id then (.error ⟨403, "Forbidden"⟩, st)
  else
    let doc := { payload with created_at := some now }
    let st1 := { st with reflections := st.reflections ++ [doc] }
    match st1.users.find? (fun u => u.id == current.id) with
    | none => (.ok newId, st1)
    | some user =>
      match pillar_map payload.pillar with
      | none => (.ok newId, st1)
      | some field =>
        let st2 := { st1 with
          users := updateFirst (fun u => u.id == current.id)
            (fun u => setField u field (getField user field + 1)) st1.users }
        (.ok newId, st2)

/-! ### Helper lemmas -/

theorem find?_updateFirst (p : α → Bool) (f : α → α) (l : List α) (x : α)
    (h : l.find? p = some x) (hf : p (f x) = true) :
    (updateFirst p f l).find? p = some (f x) := by
  induction l with
  | nil => simp at h
  | cons a t ih =>
    by_cases hp : p a
    · rw [List.find?_cons_of_pos _ hp] at h
      cases h
      simp [updateFirst, hp, List.find?_cons_of_pos _ hf]
    · rw [List.find?_cons_of_neg _ hp] at h
      simp [updateFirst, hp, List.find?_cons_of_neg _ hp, ih h]

theorem updateFirst_of_find?_none (p : α → Bool) (f : α → α) (l : List α)
    (h : l.find? p = none) : updateFirst p f l = l := by
  induction l with
  | nil => rfl
  | cons a t ih =>
    by_cases hp : p a
    · rw [List.find?_cons_of_pos _ hp] at h
      cases h
    · rw [List.find?_cons_of_neg _ hp] at h
      simp [updateFirst, hp, ih h]

theorem pyRound_nearest (q : ℚ) : |((pyRound q : ℤ) : ℚ) - q| ≤ 1/2 := by
  have h1 : ((⌊q⌋ : ℤ) : ℚ) ≤ q := Int.floor_le q
  have h2 : q < (⌊q⌋ : ℤ) + 1 := Int.lt_floor_add_one q
  unfold pyRound
  split
  · rename_i hlt
    rw [abs_le]
    constructor <;> linarith
  · rename_i hge
    push_neg at hge
    split
    · rename_i hgt
      rw [abs_le]
      constructor <;> push_cast <;> linarith
    · rename_i hle
      push_neg at hle
      have heq : q - ((⌊q⌋ : ℤ) : ℚ) = 1/2 := le_antisymm hle hge
      split <;> (rw [abs_le]; constructor <;> push_cast <;> linarith)

/-! ### Example documents and states used by witnesses -/

/-- A sample user with pillar scores mind=1, money=1, meaning=2 and one
session used out of three. -/
def exUser : UserDoc :=
  { id := "u1", name := "Alice", email := "a@example.com",
    purpose := "Healing", age := none,
    tana_mind := 1, tana_money := 1, tana_meaning := 2,
    total_sessions := 3, sessions_used := 1 }

/-- A sample token for `exUser` expiring at time 100. -/
def exToken : TokenDoc :=
  { user_id := "u1", token := "t", created_at := 0, expires_at := some 100 }

/-- A sample token for `exUser` with no expiry timestamp. -/
def exTokenNoExp : TokenDoc :=
  { user_id := "u1", token := "nt", created_at := 0, expires_at := none }

/-- The identity projection of `exUser`. -/
def exAuth : AuthUser := { id := "u1", name := "Alice", email := "a@example.com" }

/-- A sample store state holding `exUser` and its two tokens. -/
def exSt : AppState :=
  { users := [exUser], credentials := [], auth_tokens := [exToken, exTokenNoExp],
    sessions := [], reflections := [], email_log := [] }

/-- A sample user who has exhausted the session quota (3 of 3 used). -/
def exUserFull : UserDoc :=
  { id := "u2", name := "Bob", email := "b@example.com",
    purpose := "Growth", age := some 30,
    tana_mind := 0, tana_money := 0, tana_meaning := 0,
    total_sessions := 3, sessions_used := 3 }

/-- The identity projection of `exUserFull`. -/
def exAuthFull : AuthUser := { id := "u2", name := "Bob", email := "b@example.com" }

/-- A sample store state holding only `exUserFull`. -/
def exStFull : AppState :=
  { users := [exUserFull], credentials := [], auth_tokens := [],
    sessions := [], reflections := [], email_log := [] }

/-- A sample session-booking payload with a topic matching no keyword. -/
def exSession : SessionDoc :=
  { user_id := "u1", topic := "general chat", date := "2026-01-01",
    time := "10:00", feedback := none, spatial_url := none,
    status := "requested" }

/-- A sample reflection payload for `exUser` on the Mind pillar. -/
def exReflection : ReflectionDoc :=
  { user_id := "u1", pillar := "Mind", entry_text := "note", mood := none,
    created_at := none }

/-- A sample signup payload for a fresh email. -/
def exSignup : SignupRequest :=
  { name := "Cara", email := "c@example.com", password := "pw",
    purpose := "Direction", age := none }

/-! ### Claims -/

/-- C9: a stored token whose `expires_at` is absent/`None` is never rejected
as expired — the truthiness guard skips the comparison — so for every `now`
it resolves successfully as long as its user exists. -/
theorem no_expiry_token_never_expires (st : AppState) (now : Int)
    (tok : String) (td : TokenDoc)
    (hfind : st.auth_tokens.find? (fun t => t.token == tok) = some td)
    (hexp : td.expires_at = none) :
    resolveToken st now tok ≠ Except.error ⟨401, "Token expired"⟩ ∧
    (∀ u, st.users.find? (fun v => v.id == td.user_id) = some u →
      resolveToken st now tok = Except.ok ⟨u.id, u.name, u.email⟩) := by
  unfold resolveToken
  rw [hfind]
  have hexp' : expiredAt td.expires_at now = false := by rw [hexp]; rfl
  simp only [hexp', Bool.false_eq_true, if_false]
  constructor
  · cases hu : st.users.find? (fun v => v.id == td.user_id) <;> simp
  · intro u hu
    rw [hu]

/-- C9 witness: in `exSt` the token `"nt"` has no expiry and resolves to
Alice's identity at time 10^9. -/
theorem no_expiry_token_never_expires_witness :
    resolveToken exSt 1000000000 "nt" ≠ Except.error ⟨401, "Token expired"⟩ ∧
    resolveToken exSt 1000000000 "nt" = Except.ok exAuth :=
  ⟨(no_expiry_token_never_expires exSt 1000000000 "nt" exTokenNoExp rfl rfl).1,
   (no_expiry_token_never_expires exSt 1000000000 "nt" exTokenNoExp rfl rfl).2
     exUser rfl⟩

/-- C1 counterexample: in `exSt` the token `"t"` has
`expires_at = some 100`; at `now = 100` the expiry timestamp is ≤ the
current time, yet resolution succeeds — the code only rejects a strictly
smaller expiry (`expires_at < now`), contradicting the claim's "less than
or equal to". -/
theorem token_at_exact_expiry_accepted :
    (exSt.auth_tokens.find? (fun t => t.token == "t")).map
        TokenDoc.expires_at = some (some 100) ∧
    (100 : Int) ≤ 100 ∧
    resolveToken exSt 100 "t" = Except.ok exAuth := by
  refine ⟨rfl, le_refl _, rfl⟩

/-- C1 (amended): resolution fails — always with status 401 — exactly when
the token record is absent, or its expiry timestamp is strictly less than
the current time, or the referenced user no longer exists; otherwise it
returns the `{id, name, email}` projection of the token's user. -/
theorem resolveToken_spec (st : AppState) (now : Int) (tok : String) :
    (∀ e, resolveToken st now tok = Except.error e → e.status = 401) ∧
    ((∃ a, resolveToken st now tok = Except.ok a) ↔
      ∃ td, st.auth_tokens.find? (fun t => t.token == tok) = some td ∧
        (∀ exp, td.expires_at = some exp → now ≤ exp) ∧
        ∃ u, st.users.find? (fun v => v.id == td.user_id) = some u) ∧
    (∀ td u, st.auth_tokens.find? (fun t => t.token == tok) = some td →
      (∀ exp, td.expires_at = some exp → now ≤ exp) →
      st.users.find? (fun v => v.id == td.user_id) = some u →
      resolveToken st now tok = Except.ok ⟨u.id, u.name, u.email⟩) := by
  have hexpired : ∀ td : TokenDoc,
      expiredAt td.expires_at now = false ↔
        (∀ exp, td.expires_at = some exp → now ≤ exp) := by
    intro td
    cases h : td.expires_at with
    | none => simp [expiredAt]
    | some e =>
      simp only [expiredAt, Option.some.injEq]
      constructor
      · intro hlt exp hexp
        subst hexp
        simpa using hlt
      · intro h'
        simpa using h' e rfl
  unfold resolveToken
  cases hfind : st.auth_tokens.find? (fun t => t.token == tok) with
  | none => simp
  | some td =>
    by_cases hexp : expiredAt td.expires_at now
    · simp only [hexp, if_true]
      refine ⟨?_, ?_, ?_⟩
      · intro e he
        cases he
        rfl
      · constructor
        · rintro ⟨a, ha⟩; cases ha
        · rintro ⟨td', htd', hle, -⟩
          rw [Option.some.injEq] at htd'
          subst htd'
          rw [← hexpired] at hle
          rw [hexp] at hle
          cases hle
      · intro td' u htd' hle hu
        rw [Option.some.injEq] at htd'
        subst htd'
        rw [← hexpired] at hle
        rw [hexp] at hle
        cases hle
    · rw [Bool.not_eq_true] at hexp
      simp only [hexp, Bool.false_eq_true, if_false]
      cases hu : st.users.find? (fun v => v.id == td.user_id) with
      | none =>
        refine ⟨?_, ?_, ?_⟩
        · intro e he
          cases he
          rfl
        · constructor
          · rintro ⟨a, ha⟩; cases ha
          · rintro ⟨td', htd', -, u, hu'⟩
            rw [Option.some.injEq] at htd'
            subst htd'
            rw [hu] at hu'
            cases hu'
        · intro td' u htd' _ hu'
          rw [Option.some.injEq] at htd'
          subst htd'
          rw [hu] at hu'
          cases hu'
      | some user =>
        refine ⟨?_, ?_, ?_⟩
        · intro e he
          cases he
        · constructor
          · intro _
            exact ⟨td, rfl, (hexpired td).mp hexp, user, hu⟩
          · intro _
            exact ⟨⟨user.id, user.name, user.email⟩, rfl⟩
        · intro td' u htd' _ hu'
          rw [Option.some.injEq] at htd'
          subst htd'
          rw [hu] at hu'
          rw [Option.some.injEq] at hu'
          subst hu'
          rfl

/-- C1 witness for the amended theorem, instantiated at `exSt`, time 99 and
token `"t"`: resolution succeeds and returns Alice's projection. -/
theorem resolveToken_spec_witness :
    resolveToken exSt 99 "t" = Except.ok exAuth :=
  (resolveToken_spec exSt 99 "t").2.2 exToken exUser rfl
    (by intro exp h; cases h; decide) rfl

/-- C2: booking a session when the caller's `sessions_used` equals
`total_sessions` returns the soft `{limited: true}` response (not an HTTP
error) and leaves the entire store state unchanged: no session document is
inserted and no user counter or pillar score moves. -/
theorem create_session_at_limit (st : AppState) (now : Int) (newId : String)
    (current : AuthUser) (payload : SessionDoc) (user : UserDoc)
    (hfind : st.users.find? (fun u => u.id == current.id) = some user)
    (heq : user.sessions_used = user.total_sessions) :
    create_session st now newId current payload = (.limited, st) := by
  unfold create_session
  rw [hfind]
  simp [heq]

/-- C2 witness: Bob has used 3 of 3 sessions; booking returns `limited`
and `exStFull` is untouched. -/
theorem create_session_at_limit_witness :
    create_session exStFull 0 "s1" exAuthFull exSession =
      (.limited, exStFull) :=
  create_session_at_limit exStFull 0 "s1" exAuthFull exSession exUserFull
    rfl rfl

/-- C5: a signup with an email not already stored creates the user with all
three pillar scores at 0, `sessions_used = 0` and `total_sessions = 3`
(`SignupRequest` carries no such fields, so the client cannot set them),
and the response carries the issued token and the new user's id. -/
theorem signup_fresh_email (hashFn : String → String) (st : AppState)
    (now : Int) (newId newToken : String) (payload : SignupRequest)
    (hfresh : st.users.find? (fun u => u.email == payload.email) = none) :
    ∃ st', signup hashFn st now newId newToken payload =
        (Except.ok ⟨newToken, newId⟩, st') ∧
      ∃ u, st'.users = st.users ++ [u] ∧ u.id = newId ∧
        u.tana_mind = 0 ∧ u.tana_money = 0 ∧ u.tana_meaning = 0 ∧
        u.sessions_used = 0 ∧ u.total_sessions = 3 := by
  unfold signup
  rw [hfresh]
  exact ⟨_, rfl, _, rfl, rfl, rfl, rfl, rfl, rfl, rfl⟩

/-- C5 witness: signing up Cara against `exSt` issues `tok3` / id `u3` and
stores a user with zeroed scores and the 3-session default. -/
theorem signup_fresh_email_witness :
    ∃ st', signup (fun s => s) exSt 0 "u3" "tok3" exSignup =
        (Except.ok ⟨"tok3", "u3"⟩, st') ∧
      ∃ u, st'.users = exSt.users ++ [u] ∧ u.id = "u3" ∧
        u.tana_mind = 0 ∧ u.tana_money = 0 ∧ u.tana_meaning = 0 ∧
        u.sessions_used = 0 ∧ u.total_sessions = 3 :=
  signup_fresh_email (fun s => s) exSt 0 "u3" "tok3" exSignup rfl

/-- C6: a signup whose email exactly equals a stored user's email fails
with the 400 "Email already registered" error (the Conflict of the spec)
and returns the store state unchanged: no user, credential or token
document is created. -/
theorem signup_duplicate_email (hashFn : String → String) (st : AppState)
    (now : Int) (newId newToken : String) (payload : SignupRequest)
    (u : UserDoc) (hmem : u ∈ st.users) (hemail : u.email = payload.email) :
    signup hashFn st now newId newToken payload =
      (Except.error ⟨400, "Email already registered"⟩, st) := by
  have hsome : (st.users.find? (fun w => w.email == payload.email)).isSome := by
    rw [List.find?_isSome]
    exact ⟨u, hmem, by simp [hemail]⟩
  obtain ⟨v, hv⟩ := Option.isSome_iff_exists.mp hsome
  unfold signup
  rw [hv]

/-- C6 witness: re-registering Alice's exact email against `exSt` fails
with the duplicate-email error and leaves the state unchanged. -/
theorem signup_duplicate_email_witness :
    signup (fun s => s) exSt 0 "u9" "tok9"
        { name := "Eve", email := "a@example.com", password := "pw",
          purpose := "Healing", age := none } =
      (Except.error ⟨400, "Email already registered"⟩, exSt) :=
  signup_duplicate_email (fun s => s) exSt 0 "u9" "tok9" _ exUser
    (by decide) rfl

/-- C7: a reflection whose payload `user_id` differs from the
authenticated caller's id fails with 403 Forbidden and returns the store
state unchanged: no reflection document and no pillar-score change. -/
theorem add_reflection_foreign_user (st : AppState) (now : Int)
    (newId : String) (current : AuthUser) (payload : ReflectionDoc)
    (hne : payload.user_id ≠ current.id) :
    add_reflection st now newId current payload =
      (Except.error ⟨403, "Forbidden"⟩, st) := by
  unfold add_reflection
  simp [hne]

/-- C7 witness: Bob submitting Alice's reflection payload is rejected with
403 and `exSt` is untouched. -/
theorem add_reflection_foreign_user_witness :
    add_reflection exSt 0 "r1" exAuthFull exReflection =
      (Except.error ⟨403, "Forbidden"⟩, exSt) :=
  add_reflection_foreign_user exSt 0 "r1" exAuthFull exReflection
    (by decide)

/-- `setField` never touches the `id` field. -/
theorem setField_id (u : UserDoc) (f : String) (v : Int) :
    (setField u f v).id = u.id := by
  unfold setField
  split_ifs <;> rfl

/-- C3: a successful booking (quota not reached) appends the session
document (with the caller's id enforced), increments `sessions_used` by 1,
and bumps exactly one pillar chosen by the first matching substring of the
lowercased topic in the fixed priority order mind, money, meaning; with no
match, no pillar score changes. -/
theorem create_session_under_limit (st : AppState) (now : Int)
    (newId : String) (current : AuthUser) (payload : SessionDoc)
    (user : UserDoc)
    (hfind : st.users.find? (fun u => u.id == current.id) = some user)
    (hlt : user.sessions_used < user.total_sessions) :
    ∃ st', create_session st now newId current payload =
        (.created newId, st') ∧
      st'.sessions = st.sessions ++ [{ payload with user_id := current.id }] ∧
      ∃ user', st'.users.find? (fun u => u.id == current.id) = some user' ∧
        user'.sessions_used = user.sessions_used + 1 ∧
        user'.total_sessions = user.total_sessions ∧
        (strContains (lowerStr payload.topic) "mind" = true →
          user'.tana_mind = user.tana_mind + 1 ∧
          user'.tana_money = user.tana_money ∧
          user'.tana_meaning = user.tana_meaning) ∧
        (strContains (lowerStr payload.topic) "mind" = false →
          strContains (lowerStr payload.topic) "money" = true →
          user'.tana_money = user.tana_money + 1 ∧
          user'.tana_mind = user.tana_mind ∧
          user'.tana_meaning = user.tana_meaning) ∧
        (strContains (lowerStr payload.topic) "mind" = false →
          strContains (lowerStr payload.topic) "money" = false →
          strContains (lowerStr payload.topic) "meaning" = true →
          user'.tana_meaning = user.tana_meaning + 1 ∧
          user'.tana_mind = user.tana_mind ∧
          user'.tana_money = user.tana_money) ∧
        (strContains (lowerStr payload.topic) "mind" = false →
          strContains (lowerStr payload.topic) "money" = false →
          strContains (lowerStr payload.topic) "meaning" = false →
          user'.tana_mind = user.tana_mind ∧
          user'.tana_money = user.tana_money ∧
          user'.tana_meaning = user.tana_meaning) := by
  unfold create_session
  dsimp only
  rw [hfind]
  dsimp only
  rw [if_neg (not_le.mpr hlt)]
  have hid := List.find?_some hfind
  cases hm : strContains (lowerStr payload.topic) "mind" with
  | true =>
    have hpi : pillarIncOf payload.topic = some "tana_mind" := by
      simp [pillarIncOf, hm]
    rw [hpi]
    have hf : ((setField (setField user "sessions_used"
        (user.sessions_used + 1)) "tana_mind"
        (getField user "tana_mind" + 1)).id == current.id) = true := by
      rw [setField_id, setField_id]
      exact hid
    refine ⟨_, rfl, rfl, _, find?_updateFirst _ _ _ _ hfind hf,
      rfl, rfl, ?_, ?_, ?_, ?_⟩
    · intro _
      exact ⟨rfl, rfl, rfl⟩
    · intro hm' _
      cases hm'
    · intro hm' _ _
      cases hm'
    · intro hm' _ _
      cases hm'
  | false =>
    cases hy : strContains (lowerStr payload.topic) "money" with
    | true =>
      have hpi : pillarIncOf payload.topic = some "tana_money" := by
        simp [pillarIncOf, hm, hy]
      rw [hpi]
      have hf : ((setField (setField user "sessions_used"
          (user.sessions_used + 1)) "tana_money"
          (getField user "tana_money" + 1)).id == current.id) = true := by
        rw [setField_id, setField_id]
        exact hid
      refine ⟨_, rfl, rfl, _, find?_updateFirst _ _ _ _ hfind hf,
        rfl, rfl, ?_, ?_, ?_, ?_⟩
      · intro hm'
        cases hm'
      · intro _ _
        exact ⟨rfl, rfl, rfl⟩
      · intro _ hy' _
        cases hy'
      · intro _ hy' _
        cases hy'
    | false =>
      cases hg : strContains (lowerStr payload.topic) "meaning" with
      | true =>
        have hpi : pillarIncOf payload.topic = some "tana_meaning" := by
          simp [pillarIncOf, hm, hy, hg]
        rw [hpi]
        have hf : ((setField (setField user "sessions_used"
            (user.sessions_used + 1)) "tana_meaning"
            (getField user "tana_meaning" + 1)).id == current.id) = true := by
          rw [setField_id, setField_id]
          exact hid
        refine ⟨_, rfl, rfl, _, find?_updateFirst _ _ _ _ hfind hf,
          rfl, rfl, ?_, ?_, ?_, ?_⟩
        · intro hm'
          cases hm'
        · intro _ hy'
          cases hy'
        · intro _ _ _
          exact ⟨rfl, rfl, rfl⟩
        · intro _ _ hg'
          cases hg'
      | false =>
        have hpi : pillarIncOf payload.topic = none := by
          simp [pillarIncOf, hm, hy, hg]
        rw [hpi]
        have hf : ((setField user "sessions_used"
            (user.sessions_used + 1)).id == current.id) = true := by
          rw [setField_id]
          exact hid
        refine ⟨_, rfl, rfl, _, find?_updateFirst _ _ _ _ hfind hf,
          rfl, rfl, ?_, ?_, ?_, ?_⟩
        · intro hm'
          cases hm'
        · intro _ hy'
          cases hy'
        · intro _ _ hg'
          cases hg'
        · intro _ _ _
          exact ⟨rfl, rfl, rfl⟩

/-- C3 witness: Alice (1 of 3 sessions used) books "Mind reset": her
`sessions_used` becomes 2 and `tana_mind` becomes 2. -/
theorem create_session_under_limit_witness :
    ∃ st', create_session exSt 0 "s2" exAuth
        { exSession with topic := "Mind reset" } = (.created "s2", st') ∧
      ∃ user', st'.users.find? (fun u => u.id == exAuth.id) = some user' ∧
        user'.sessions_used = 2 ∧ user'.tana_mind = 2 := by
  obtain ⟨st', hok, -, user', hfind, hused, -, hmind, -, -, -⟩ :=
    create_session_under_limit exSt 0 "s2" exAuth
      { exSession with topic := "Mind reset" } exUser rfl (by decide)
  obtain ⟨hm1, -, -⟩ := hmind (by decide)
  refine ⟨st', hok, user', hfind, ?_, ?_⟩
  · rw [hused]
    decide
  · rw [hm1]
    decide

/-- C8: a reflection owned by the caller is persisted with the
server-assigned creation timestamp; the pillar score whose name matches
the reflection's pillar string (exact, case-sensitive lookup) is
incremented by 1; when the user document is gone the increment is silently
skipped and the reflection is still persisted. -/
theorem add_reflection_owned (st : AppState) (now : Int) (newId : String)
    (current : AuthUser) (payload : ReflectionDoc)
    (hown : payload.user_id = current.id) :
    ∃ st', add_reflection st now newId current payload =
        (Except.ok newId, st') ∧
      st'.reflections =
        st.reflections ++ [{ payload with created_at := some now }] ∧
      (st.users.find? (fun u => u.id == current.id) = none →
        st'.users = st.users) ∧
      (∀ user, st.users.find? (fun u => u.id == current.id) = some user →
        ∃ user', st'.users.find? (fun u => u.id == current.id) = some user' ∧
          (payload.pillar = "Mind" → user'.tana_mind = user.tana_mind + 1 ∧
            user'.tana_money = user.tana_money ∧
            user'.tana_meaning = user.tana_meaning) ∧
          (payload.pillar = "Money" → user'.tana_money = user.tana_money + 1 ∧
            user'.tana_mind = user.tana_mind ∧
            user'.tana_meaning = user.tana_meaning) ∧
          (payload.pillar = "Meaning" →
            user'.tana_meaning = user.tana_meaning + 1 ∧
            user'.tana_mind = user.tana_mind ∧
            user'.tana_money = user.tana_money)) := by
  unfold add_reflection
  rw [if_neg (by simp [hown])]
  dsimp only
  cases hu : List.find? (fun u => u.id == current.id) st.users with
  | none =>
    refine ⟨_, rfl, rfl, fun _ => rfl, ?_⟩
    intro user huser
    cases huser
  | some user =>
    have hid := List.find?_some hu
    cases hpm : pillar_map payload.pillar with
    | none =>
      refine ⟨_, rfl, rfl, ?_, ?_⟩
      · intro hnone
        cases hnone
      · intro user0 huser0
        cases huser0
        dsimp only
        refine ⟨user, hu, ?_, ?_, ?_⟩ <;> intro hp <;> rw [hp] at hpm
        · rw [show pillar_map "Mind" = some "tana_mind" from rfl] at hpm
          cases hpm
        · rw [show pillar_map "Money" = some "tana_money" from rfl] at hpm
          cases hpm
        · rw [show pillar_map "Meaning" = some "tana_meaning" from rfl] at hpm
          cases hpm
    | some field =>
      have hf : ((setField user field (getField user field + 1)).id ==
          current.id) = true := by
        rw [setField_id]
        exact hid
      refine ⟨_, rfl, rfl, ?_, ?_⟩
      · intro hnone
        cases hnone
      · intro user0 huser0
        cases huser0
        dsimp only
        refine ⟨_, find?_updateFirst _ _ _ _ hu hf, ?_, ?_, ?_⟩ <;>
          intro hp <;> rw [hp] at hpm
        · rw [show pillar_map "Mind" = some "tana_mind" from rfl] at hpm
          cases hpm
          exact ⟨rfl, rfl, rfl⟩
        · rw [show pillar_map "Money" = some "tana_money" from rfl] at hpm
          cases hpm
          exact ⟨rfl, rfl, rfl⟩
        · rw [show pillar_map "Meaning" = some "tana_meaning" from rfl] at hpm
          cases hpm
          exact ⟨rfl, rfl, rfl⟩

/-- C8 witness: Alice's own "Mind" reflection at time 5 is stored with
`created_at = 5` and raises her `tana_mind` from 1 to 2. -/
theorem add_reflection_owned_witness :
    ∃ st', add_reflection exSt 5 "r1" exAuth exReflection =
        (Except.ok "r1", st') ∧
      st'.reflections =
        exSt.reflections ++ [{ exReflection with created_at := some 5 }] ∧
      ∃ user', st'.users.find? (fun u => u.id == exAuth.id) = some user' ∧
        user'.tana_mind = 2 := by
  obtain ⟨st', hok, hrefl, -, hsome⟩ :=
    add_reflection_owned exSt 5 "r1" exAuth exReflection rfl
  obtain ⟨user', hfind, hmind, -, -⟩ := hsome exUser rfl
  obtain ⟨hm1, -, -⟩ := hmind rfl
  refine ⟨st', hok, hrefl, user', hfind, ?_⟩
  rw [hm1]
  decide

/-- C10: every successful booking appends exactly one email-log entry whose
recipient is the fixed literal `"Jagathisraj4@gmail.com"` and whose subject
is fixed, for every user and payload; only the body varies, with the user's
name and the session's topic, date and time. -/
theorem create_session_email_recipient (st : AppState) (now : Int)
    (newId : String) (current : AuthUser) (payload : SessionDoc)
    (user : UserDoc)
    (hfind : st.users.find? (fun u => u.id == current.id) = some user)
    (hlt : user.sessions_used < user.total_sessions) :
    ∃ st', create_session st now newId current payload =
        (.created newId, st') ∧
      st'.email_log = st.email_log ++
        [{ to_addr := "Jagathisraj4@gmail.com",
           subject := "New TANA Session Request",
           body := "User " ++ user.name ++ " requested a session on " ++
             payload.topic ++ " for " ++ payload.date ++ " " ++ payload.time,
           created_at := now }] := by
  unfold create_session
  dsimp only
  rw [hfind]
  dsimp only
  rw [if_neg (not_le.mpr hlt)]
  exact ⟨_, rfl, rfl⟩

/-- C10 witness: Alice's booking of `exSession` logs an email to the fixed
address with the concrete body rendered from her name and the session. -/
theorem create_session_email_recipient_witness :
    ∃ st', create_session exSt 0 "s3" exAuth exSession =
        (.created "s3", st') ∧
      st'.email_log = exSt.email_log ++
        [{ to_addr := "Jagathisraj4@gmail.com",
           subject := "New TANA Session Request",
           body :=
             "User Alice requested a session on general chat for 2026-01-01 10:00",
           created_at := 0 }] := by
  obtain ⟨st', hok, hlog⟩ :=
    create_session_email_recipient exSt 0 "s3" exAuth exSession exUser rfl
      (by decide)
  refine ⟨st', hok, ?_⟩
  rw [hlog]
  rfl

/-- C4: each dashboard percentage is that pillar's score divided by
`max(mind + money + meaning, 1)` times 100, rounded to a nearest integer
(distance at most 1/2); with all three scores 0 the percentages are
0/0/0 (no division error), and with scores 1/1/2 they are 25/25/50. -/
theorem dashboard_percentages (st : AppState) (current : AuthUser)
    (user : UserDoc)
    (hfind : st.users.find? (fun u => u.id == current.id) = some user) :
    ∃ resp, dashboard st current = Except.ok resp ∧
      resp.mind = user.tana_mind ∧
      resp.money = user.tana_money ∧
      resp.meaning = user.tana_meaning ∧
      (|(resp.pMind : ℚ) - (user.tana_mind : ℚ) /
          ((max (user.tana_mind + user.tana_money + user.tana_meaning) 1 :
            Int) : ℚ) * 100| ≤ 1/2) ∧
      (|(resp.pMoney : ℚ) - (user.tana_money : ℚ) /
          ((max (user.tana_mind + user.tana_money + user.tana_meaning) 1 :
            Int) : ℚ) * 100| ≤ 1/2) ∧
      (|(resp.pMeaning : ℚ) - (user.tana_meaning : ℚ) /
          ((max (user.tana_mind + user.tana_money + user.tana_meaning) 1 :
            Int) : ℚ) * 100| ≤ 1/2) ∧
      (user.tana_mind = 0 → user.tana_money = 0 → user.tana_meaning = 0 →
        resp.pMind = 0 ∧ resp.pMoney = 0 ∧ resp.pMeaning = 0) ∧
      (user.tana_mind = 1 → user.tana_money = 1 → user.tana_meaning = 2 →
        resp.pMind = 25 ∧ resp.pMoney = 25 ∧ resp.pMeaning = 50) := by
  unfold dashboard
  dsimp only
  rw [hfind]
  dsimp only
  refine ⟨_, rfl, rfl, rfl, rfl, pyRound_nearest _, pyRound_nearest _,
    pyRound_nearest _, ?_, ?_⟩
  · intro h1 h2 h3
    rw [h1, h2, h3]
    refine ⟨?_, ?_, ?_⟩ <;> norm_num [pyRound]
  · intro h1 h2 h3
    rw [h1, h2, h3]
    refine ⟨?_, ?_, ?_⟩ <;> norm_num [pyRound]

/-- C4 witness: Alice's dashboard (mind=1, money=1, meaning=2) shows the
percentages 25 / 25 / 50. -/
theorem dashboard_percentages_witness :
    ∃ resp, dashboard exSt exAuth = Except.ok resp ∧
      resp.pMind = 25 ∧ resp.pMoney = 25 ∧ resp.pMeaning = 50 := by
  obtain ⟨resp, hok, -, -, -, -, -, -, -, hex⟩ :=
    dashboard_percentages exSt exAuth exUser rfl
  obtain ⟨h1, h2, h3⟩ := hex rfl rfl rfl
  exact ⟨resp, hok, h1, h2, h3⟩

end LifeOS
